import Mathlib

/-!
Verification of the risk, signal and state-store core of the
`crypto-strategies` trading controller.

All monetary quantities and prices are embedded as rationals (`ℚ`); the
Python source uses floats, but every claim checked here is about ordering
and branch logic at values where float rounding plays no role.

Namespaces mirror the source modules:
* `Risk`       — `src/src/risk.py`
* `Strategy`   — `src/py/src/strategies/volatility_regime/strategy.py`
* `StateStore` — `src/src/state_manager.py`
-/

namespace Risk

/-- `RiskAction` enum from `risk.py`. -/
inductive RiskAction
  | allow
  | reduce
  | block
deriving DecidableEq, Repr

/-- `RiskLimits` dataclass from `risk.py` (all fields). -/
structure RiskLimits where
  max_risk_per_trade : ℚ
  min_risk_per_trade : ℚ
  max_position_pct : ℚ
  max_positions : ℕ
  max_portfolio_heat : ℚ
  drawdown_warning : ℚ
  drawdown_critical : ℚ
  drawdown_halt : ℚ
  max_daily_loss_pct : ℚ
  max_daily_trades : ℕ
  consecutive_loss_threshold : ℕ
  consecutive_loss_reduction : ℚ
  max_consecutive_losses : ℕ
  consecutive_wins_for_reset : ℕ
deriving DecidableEq, Repr

/-- The default values of the `RiskLimits` dataclass fields. -/
def defaultRiskLimits : RiskLimits where
  max_risk_per_trade := 2/100
  min_risk_per_trade := 5/1000
  max_position_pct := 40/100
  max_positions := 2
  max_portfolio_heat := 10/100
  drawdown_warning := 10/100
  drawdown_critical := 15/100
  drawdown_halt := 20/100
  max_daily_loss_pct := 5/100
  max_daily_trades := 5
  consecutive_loss_threshold := 3
  consecutive_loss_reduction := 25/100
  max_consecutive_losses := 5
  consecutive_wins_for_reset := 2

/-- `Position` dataclass from `risk.py`; `entry_time` is an abstract
timestamp (its value never influences any computation in the module). -/
structure Position where
  symbol : String
  entry_price : ℚ
  quantity : ℚ
  stop_price : ℚ
  target_price : ℚ
  entry_time : ℕ
  risk_amount : ℚ
deriving DecidableEq, Repr

/-- `DailyStats` dataclass from `risk.py`; the calendar `date` is abstract. -/
structure DailyStats where
  date : ℕ
  starting_equity : ℚ
  current_equity : ℚ
  trades_count : ℕ
  winning_trades : ℕ
  losing_trades : ℕ
  gross_pnl : ℚ
  fees_paid : ℚ
deriving DecidableEq, Repr

/-- `DailyStats.daily_return` property. -/
def DailyStats.daily_return (d : DailyStats) : ℚ :=
  if d.starting_equity = 0 then 0
  else (d.current_equity - d.starting_equity) / d.starting_equity

/-- `PortfolioState` dataclass from `risk.py`.  The `positions` dict keyed
by symbol is embedded as a list with pairwise distinct symbols; insertion
(`add_position`) replaces the entry with the same symbol. -/
structure PortfolioState where
  equity : ℚ
  peak_equity : ℚ
  positions : List Position
  daily_stats : Option DailyStats
  consecutive_losses : ℕ
  consecutive_wins : ℕ
deriving DecidableEq, Repr

/-- `PortfolioState.drawdown` property. -/
def PortfolioState.drawdown (s : PortfolioState) : ℚ :=
  if s.peak_equity = 0 then 0
  else (s.peak_equity - s.equity) / s.peak_equity

/-- `PortfolioState.total_risk` property: sum of open-position risk amounts. -/
def PortfolioState.total_risk (s : PortfolioState) : ℚ :=
  (s.positions.map Position.risk_amount).sum

/-- `PortfolioState.portfolio_heat` property. -/
def PortfolioState.portfolio_heat (s : PortfolioState) : ℚ :=
  if s.equity = 0 then 0 else s.total_risk / s.equity

/-- `PortfolioState.position_count` property. -/
def PortfolioState.position_count (s : PortfolioState) : ℕ :=
  s.positions.length

/-- `RiskManager.__init__`: the portfolio state built for a fresh manager
(`daily_stats` starts fresh at the initial equity). -/
def RiskManager.init (initial_equity : ℚ) : PortfolioState where
  equity := initial_equity
  peak_equity := initial_equity
  positions := []
  daily_stats := some
    { date := 0
      starting_equity := initial_equity
      current_equity := initial_equity
      trades_count := 0
      winning_trades := 0
      losing_trades := 0
      gross_pnl := 0
      fees_paid := 0 }
  consecutive_losses := 0
  consecutive_wins := 0

/-- `RiskManager.update_equity`. -/
def update_equity (s : PortfolioState) (new_equity : ℚ) : PortfolioState :=
  { s with
    equity := new_equity
    peak_equity := max s.peak_equity new_equity
    daily_stats := s.daily_stats.map fun d => { d with current_equity := new_equity } }

/-- The daily-limit test inside `RiskManager.can_trade`: when daily stats
exist, block on the trade-count ceiling, or on the loss ceiling when today's
return is negative and its magnitude reaches `max_daily_loss_pct`. -/
def daily_limit_hit (l : RiskLimits) (s : PortfolioState) : Bool :=
  match s.daily_stats with
  | none => false
  | some d =>
      decide (d.trades_count ≥ l.max_daily_trades) ||
        (decide (|d.daily_return| ≥ l.max_daily_loss_pct) && decide (d.daily_return < 0))

/-- `RiskManager.can_trade`, transcribed check by check in source order. -/
def can_trade (l : RiskLimits) (s : PortfolioState) : RiskAction :=
  if s.drawdown ≥ l.drawdown_halt then .block
  else if s.consecutive_losses ≥ l.max_consecutive_losses then .block
  else if daily_limit_hit l s then .block
  else if s.position_count ≥ l.max_positions then .block
  else if s.portfolio_heat ≥ l.max_portfolio_heat then .block
  else if s.drawdown ≥ l.drawdown_warning then .reduce
  else if s.consecutive_losses ≥ l.consecutive_loss_threshold then .reduce
  else .allow

/-- `RiskManager.get_size_multiplier`. -/
def get_size_multiplier (l : RiskLimits) (s : PortfolioState) : ℚ :=
  let m0 : ℚ := 1
  let m1 :=
    if s.drawdown ≥ l.drawdown_critical then m0 * (1/4)
    else if s.drawdown ≥ l.drawdown_warning then m0 * (1/2)
    else m0
  let m2 :=
    if s.consecutive_losses ≥ l.consecutive_loss_threshold then
      m1 * (1 - l.consecutive_loss_reduction)
    else m1
  max (1/4) m2

/-- `RiskManager.calculate_position_size`.  `base_risk_pct = none` embeds the
Python default `None`; a passed value of `0` falls back to
`max_risk_per_trade` because Python's `or` treats `0.0` as falsy. -/
def calculate_position_size (l : RiskLimits) (s : PortfolioState)
    (price stop_distance regime_score : ℚ) (base_risk_pct : Option ℚ) : ℚ :=
  if stop_distance ≤ 0 ∨ price ≤ 0 then 0
  else if can_trade l s = RiskAction.block then 0
  else
    let risk_pct0 : ℚ :=
      match base_risk_pct with
      | none => l.max_risk_per_trade
      | some b => if b = 0 then l.max_risk_per_trade else b
    let risk_pct := max (min risk_pct0 l.max_risk_per_trade) l.min_risk_per_trade
    let risk_amount := s.equity * risk_pct * (min (max regime_score (1/2)) (3/2))
        * get_size_multiplier l s
    let shares := risk_amount / stop_distance
    let position_value := min (shares * price) (s.equity * l.max_position_pct)
    let remaining_heat := l.max_portfolio_heat - s.portfolio_heat
    if remaining_heat < risk_pct then
      min position_value ((remaining_heat * s.equity / stop_distance) * price)
    else position_value

/-- `RiskManager.add_position`: `positions[symbol] = position`. -/
def add_position (s : PortfolioState) (p : Position) : PortfolioState :=
  { s with
    positions :=
      if s.positions.any fun q => q.symbol = p.symbol then
        s.positions.map fun q => if q.symbol = p.symbol then p else q
      else s.positions ++ [p] }

end Risk

namespace Strategy

/-- Parameters of `VolatilityRegimeIndicator` that its `next` method reads. -/
structure RegimeParams where
  lookback : ℕ
  compression_thresh : ℚ
  expansion_thresh : ℚ
  extreme_thresh : ℚ
deriving DecidableEq, Repr

/-- One output sample of `VolatilityRegimeIndicator.next`: the values written
to the `regime`, `atr_percentile` and `regime_score` lines.  Regimes use the
source's integer codes (0 compression, 1 normal, 2 expansion, 3 extreme). -/
structure RegimeOutput where
  regime : ℕ
  atr_percentile : ℚ
  regime_score : ℚ
deriving DecidableEq, Repr

/-- Integer code the indicator writes for the compression regime. -/
def regimeCompression : ℕ := 0

/-- Integer code the indicator writes for the normal regime. -/
def regimeNormal : ℕ := 1

/-- Integer code the indicator writes for the expansion regime. -/
def regimeExpansion : ℕ := 2

/-- Integer code the indicator writes for the extreme regime. -/
def regimeExtreme : ℕ := 3

/-- The trailing ATR mean computed inside `VolatilityRegimeIndicator.next`:
`sum(atr_values) / len(atr_values)` over `atr[-i] for i in range(lookback)`,
i.e. the most recent `lookback` ATR samples, current bar included.  `atr` is
the ATR series, most recent sample first. -/
def atr_mean (p : RegimeParams) (atr : List ℚ) : ℚ :=
  ((atr.take p.lookback).sum) / ((atr.take p.lookback).length : ℚ)

/-- `VolatilityRegimeIndicator.next`.  `atr` is the ATR series available so
far, most recent sample first (so `atr.headI` is `self.atr[0]` and
`atr.length` is `len(self.atr)`). -/
def VolatilityRegimeIndicator.next (p : RegimeParams) (atr : List ℚ) : RegimeOutput :=
  if atr.length < p.lookback then ⟨1, 1/2, 1⟩
  else if atr_mean p atr = 0 then ⟨1, 1/2, 1⟩
  else if atr.headI / atr_mean p atr < p.compression_thresh then
    ⟨0, atr.headI / atr_mean p atr, 3/2⟩
  else if atr.headI / atr_mean p atr > p.extreme_thresh then
    ⟨3, atr.headI / atr_mean p atr, 1/2⟩
  else if atr.headI / atr_mean p atr > p.expansion_thresh then
    ⟨2, atr.headI / atr_mean p atr, 4/5⟩
  else ⟨1, atr.headI / atr_mean p atr, 1⟩

/-- The strategy parameters `check_exit_conditions` reads. -/
structure ExitParams where
  trailing_activation : ℚ
  trailing_atr_multiple : ℚ
deriving DecidableEq, Repr

/-- The per-symbol tracking state (`entry_prices[name]`, `stop_prices[name]`,
`target_prices[name]`, `trailing_active[name]`) for an open position. -/
structure OpenTracking where
  entry_price : ℚ
  stop_price : ℚ
  target_price : ℚ
  trailing_active : Bool
deriving DecidableEq, Repr

/-- One OHLCV bar restricted to the fields `check_exit_conditions` reads. -/
structure Bar where
  close : ℚ
  high : ℚ
deriving DecidableEq, Repr

/-- The exit reason selected (via the log branch taken) when
`check_exit_conditions` returns `True`. -/
inductive ExitReason
  | stop_loss
  | take_profit
  | regime_exit
  | trend_exit
deriving DecidableEq, Repr

/-- The trailing-stop block of `check_exit_conditions` (strategy.py lines
504-514): compute `profit_atr`, and when it reaches `trailing_activation`,
arm the trail and ratchet the stored stop up to `close - atr * multiple`
only when that candidate is strictly greater. -/
def update_trailing (p : ExitParams) (t : OpenTracking) (close atr : ℚ) : OpenTracking :=
  let profit_atr := if atr > 0 then (close - t.entry_price) / atr else 0
  if profit_atr ≥ p.trailing_activation then
    let new_stop := close - atr * p.trailing_atr_multiple
    { t with
      trailing_active := true
      stop_price := if new_stop > t.stop_price then new_stop else t.stop_price }
  else t

/-- The exit-decision chain of `check_exit_conditions` (strategy.py lines
516-543), evaluated after the trailing update: stop loss against the bar's
close, target against the bar's high, regime-extreme, then trend break when
at or above breakeven.  Returns the first reason that fires. -/
def exit_reason (t : OpenTracking) (b : Bar) (regime : ℕ) (ema_slow : ℚ) :
    Option ExitReason :=
  if b.close ≤ t.stop_price then some .stop_loss
  else if b.high ≥ t.target_price then some .take_profit
  else if regime = 3 then some .regime_exit
  else if b.close < ema_slow ∧ b.close ≥ t.entry_price then some .trend_exit
  else none

/-- `CoinDCXStrategy.check_exit_conditions` for one open position on one bar:
the trailing-stop ratchet runs first, then the exit chain uses the freshly
ratcheted stop.  Returns the updated tracking state and the selected exit
reason (`none` when the function returns `False`). -/
def check_exit_conditions (p : ExitParams) (t : OpenTracking) (b : Bar)
    (atr : ℚ) (regime : ℕ) (ema_slow : ℚ) : OpenTracking × Option ExitReason :=
  (update_trailing p t b.close atr,
   exit_reason (update_trailing p t b.close atr) b regime ema_slow)

/-- Iterate the trailing-stop update over a sequence of cycles; each cycle
supplies that bar's close and ATR. -/
def run_trailing (p : ExitParams) (t : OpenTracking) (bars : List (ℚ × ℚ)) :
    OpenTracking :=
  bars.foldl (fun acc cb => update_trailing p acc cb.1 cb.2) t

/-- Variant of the exit chain written from the spec's words for claim C6,
which asserts that the target comparison also uses the bar's closing price;
to be compared against `exit_reason`, which is transcribed from the code. -/
def exit_reason_close_spec (t : OpenTracking) (b : Bar) (regime : ℕ)
    (ema_slow : ℚ) : Option ExitReason :=
  if b.close ≤ t.stop_price then some .stop_loss
  else if b.close ≥ t.target_price then some .take_profit
  else if regime = 3 then some .regime_exit
  else if b.close < ema_slow ∧ b.close ≥ t.entry_price then some .trend_exit
  else none

end Strategy

namespace StateStore

/-- `TradeRecord` dataclass from `state_manager.py` (the free-form `metadata`
dict is omitted: no claim touches it and it never influences control flow). -/
structure TradeRecord where
  id : Option ℕ
  symbol : String
  side : String
  quantity : ℚ
  entry_price : ℚ
  exit_price : ℚ
  entry_time : String
  exit_time : String
  gross_pnl : ℚ
  fees : ℚ
  tax : ℚ
  net_pnl : ℚ
  pnl_pct : ℚ
  status : String
  exit_reason : String
  strategy_signal : String
  regime_at_entry : String
  regime_at_exit : String
  atr_at_entry : ℚ
  stop_loss : ℚ
  take_profit : ℚ
  risk_reward_actual : ℚ
deriving DecidableEq, Repr

/-- A trade record with the dataclass defaults and a given symbol. -/
def mkTrade (sym : String) : TradeRecord where
  id := none
  symbol := sym
  side := "buy"
  quantity := 0
  entry_price := 0
  exit_price := 0
  entry_time := ""
  exit_time := ""
  gross_pnl := 0
  fees := 0
  tax := 0
  net_pnl := 0
  pnl_pct := 0
  status := "closed"
  exit_reason := ""
  strategy_signal := ""
  regime_at_entry := ""
  regime_at_exit := ""
  atr_at_entry := 0
  stop_loss := 0
  take_profit := 0
  risk_reward_actual := 0

/-- `Position` dataclass from `state_manager.py` (persistence layer). -/
structure Position where
  symbol : String
  side : String
  quantity : ℚ
  entry_price : ℚ
  entry_time : Option String
  stop_loss : ℚ
  take_profit : ℚ
  status : String
  order_id : Option String
  pnl : ℚ
  exit_price : ℚ
  exit_time : Option String
deriving DecidableEq, Repr

/-- `Checkpoint` dataclass from `state_manager.py` (the `metadata` dict is
omitted as for `TradeRecord`). -/
structure Checkpoint where
  timestamp : String
  cycle_count : ℕ
  portfolio_value : ℚ
  cash : ℚ
  positions_value : ℚ
  open_positions : ℕ
  last_processed_symbols : List String
  drawdown_pct : ℚ
  consecutive_losses : ℕ
  paper_mode : Bool
  config_hash : String
deriving DecidableEq, Repr

/-- The durable contents of a `SqliteStateManager` database: the `positions`
table (primary key `symbol`), the append-only `checkpoints` table in
insertion order, and the append-only `trades` table in insertion order. -/
structure SqliteDB where
  positions : List Position
  checkpoints : List Checkpoint
  trades : List TradeRecord
deriving DecidableEq, Repr

/-- `SqliteStateManager.save_position`: `INSERT OR REPLACE` keyed on
`symbol`. -/
def SqliteStateManager.save_position (db : SqliteDB) (p : Position) : SqliteDB :=
  { db with
    positions :=
      if db.positions.any fun q => q.symbol = p.symbol then
        db.positions.map fun q => if q.symbol = p.symbol then p else q
      else db.positions ++ [p] }

/-- `SqliteStateManager.record_trade`: a plain `INSERT` into the `trades`
table. -/
def SqliteStateManager.record_trade (db : SqliteDB) (t : TradeRecord) : SqliteDB :=
  { db with trades := db.trades ++ [t] }

/-- `SqliteStateManager.save_checkpoint`: a plain `INSERT` into the
`checkpoints` table. -/
def SqliteStateManager.save_checkpoint (db : SqliteDB) (c : Checkpoint) : SqliteDB :=
  { db with checkpoints := db.checkpoints ++ [c] }

/-- The parsed contents of an exported snapshot file, as read back by
`SqliteStateManager.import_json`. -/
structure Snapshot where
  positions : List Position
  checkpoint : Option Checkpoint
  recent_trades : List TradeRecord
deriving DecidableEq, Repr

/-- `SqliteStateManager.import_json`: calls `save_position` for every
position in the snapshot file and touches nothing else. -/
def SqliteStateManager.import_json (db : SqliteDB) (snap : Snapshot) : SqliteDB :=
  snap.positions.foldl SqliteStateManager.save_position db

/-- The in-memory `_state` dict of `JsonFileStateManager`: positions keyed by
symbol, a single checkpoint slot, and the trade list. -/
structure JsonState where
  positions : List Position
  checkpoint : Option Checkpoint
  trades : List TradeRecord
deriving DecidableEq, Repr

/-- `JsonFileStateManager.record_trade`: append the record, then keep only
the last 1000 entries (`self._state["trades"][-1000:]`). -/
def JsonFileStateManager.record_trade (st : JsonState) (t : TradeRecord) : JsonState :=
  { st with trades := (st.trades ++ [t]).drop ((st.trades.length + 1) - 1000) }

/-- `JsonFileStateManager.import_json`: `self._state = json.load(f)` — the
entire in-memory state is replaced by the file's contents. -/
def JsonFileStateManager.import_json (st : JsonState) (snap : JsonState) : JsonState :=
  snap

end StateStore

section ExampleStates

open Risk Strategy StateStore

/-- Default risk limits except `max_risk_per_trade = 0.08`. -/
def limitsWideRisk : Risk.RiskLimits :=
  { defaultRiskLimits with max_risk_per_trade := 8/100 }

/-- Default risk limits except `max_position_pct = 0.30` (the configuration of
the spec's position-sizing example). -/
def limitsPct30 : Risk.RiskLimits :=
  { defaultRiskLimits with max_position_pct := 30/100 }

/-- Default risk limits except `max_position_pct = 0.50`; at this cap the
sizing example's position value passes through unclamped, exposing the
intermediate `shares * price` product. -/
def limitsPct50 : Risk.RiskLimits :=
  { defaultRiskLimits with max_position_pct := 1/2 }

/-- A fresh 100000-equity portfolio after three consecutive losses. -/
def stateLossStreak : Risk.PortfolioState :=
  { RiskManager.init 100000 with consecutive_losses := 3 }

/-- A portfolio with three consecutive losses whose equity has fallen from a
peak of 100000 to 85000, i.e. a drawdown of exactly 15%. -/
def stateLossStreakDD : Risk.PortfolioState :=
  { RiskManager.init 100000 with equity := 85000, consecutive_losses := 3 }

/-- The position corresponding to the sizing call in the heat-cap scenario:
value 12000 at price 100, stop distance 100, hence risk amount
`12000 / 100 * 100 = 12000`. -/
def posWideRisk : Risk.Position where
  symbol := "BTCINR"
  entry_price := 100
  quantity := 120
  stop_price := 0
  target_price := 0
  entry_time := 0
  risk_amount := 12000

/-- A JSON-backend store already holding 1000 trade records, the oldest one
distinguishable by its symbol. -/
def jsonStFull : StateStore.JsonState :=
  ⟨[], none, mkTrade "FIRST" :: List.replicate 999 (mkTrade "B")⟩

/-- A SQLite store holding one recorded trade. -/
def sqliteDbOne : StateStore.SqliteDB := ⟨[], [], [mkTrade "A"]⟩

/-- A JSON-backend store holding one recorded trade. -/
def jsonStOne : StateStore.JsonState := ⟨[], none, [mkTrade "A"]⟩

/-- An arbitrary concrete checkpoint. -/
def checkpointA : StateStore.Checkpoint :=
  ⟨"2024-01-01T00:00:00", 1, 100000, 100000, 0, 0, [], 0, 0, true, "cfg"⟩

/-- A JSON-backend store with a saved checkpoint and one recorded trade. -/
def jsonStWithHistory : StateStore.JsonState := ⟨[], some checkpointA, [mkTrade "A"]⟩

/-- A snapshot file with no positions, no checkpoint and no trades. -/
def emptyJsonSnapshot : StateStore.JsonState := ⟨[], none, []⟩

end ExampleStates

section Theorems

open Risk Strategy StateStore

/-- One trailing-stop update never lowers the stored stop. -/
theorem update_trailing_stop_le (p : ExitParams) (t : OpenTracking) (close atr : ℚ) :
    t.stop_price ≤ (update_trailing p t close atr).stop_price := by
  simp only [update_trailing]
  split_ifs <;> try dsimp only
  all_goals
    first
      | exact le_refl _
      | exact le_of_lt (by assumption)

/-- Claim C2: the trailing-stop ratchet of `check_exit_conditions` is
monotone.  Across any sequence of cycles (each cycle supplying that bar's
close and ATR) the stored stop price never decreases, and a single cycle's
update either leaves the stop unchanged or replaces it with the candidate
`close - atr * trailing_atr_multiple`, doing so only when the candidate is
strictly greater than the stored stop. -/
theorem trailing_stop_monotone (p : ExitParams) (t : OpenTracking)
    (bars : List (ℚ × ℚ)) :
    t.stop_price ≤ (run_trailing p t bars).stop_price
    ∧ ∀ close atr : ℚ,
        (update_trailing p t close atr).stop_price = t.stop_price
        ∨ (t.stop_price < close - atr * p.trailing_atr_multiple
            ∧ (update_trailing p t close atr).stop_price
              = close - atr * p.trailing_atr_multiple) := by
  constructor
  · induction bars generalizing t with
    | nil => exact le_refl _
    | cons b bs ih =>
        exact le_trans (update_trailing_stop_le p t b.1 b.2) (ih _)
  · intro close atr
    simp only [update_trailing]
    split_ifs <;> try dsimp only
    all_goals
      first
        | exact Or.inl rfl
        | exact Or.inr ⟨by assumption, rfl⟩

/-- Claim C4: with equity 100000, fresh statistics, `max_risk_per_trade`
0.02 and `max_position_pct` 0.30, `calculate_position_size(50000, 2000, 1.0)`
returns 30000; with the position cap relaxed to 0.50 the same call returns
the uncapped `shares * price = 50000`, exhibiting the intermediate values
risk_amount = 2000 and shares = 1. -/
theorem position_size_example_capped :
    calculate_position_size limitsPct30 (RiskManager.init 100000) 50000 2000 1 none
      = 30000
    ∧ calculate_position_size limitsPct50 (RiskManager.init 100000) 50000 2000 1 none
      = 50000 := by
  constructor <;>
  · norm_num [calculate_position_size, can_trade, RiskManager.init, defaultRiskLimits,
      limitsPct30, limitsPct50, PortfolioState.drawdown, daily_limit_hit,
      DailyStats.daily_return, PortfolioState.portfolio_heat, PortfolioState.total_risk,
      PortfolioState.position_count, get_size_multiplier] <;> decide

/-- Claim C5 counterexample: with the default limits (warning 0.10, critical
0.15, loss threshold 3, reduction 0.25), a drawdown of exactly 15% combined
with three consecutive losses yields `get_size_multiplier` = 0.25, not the
0.375 the claim asserts: at exactly the critical threshold the `>=` critical
branch fires, and the floor of 0.25 lifts 0.25 x 0.75 = 0.1875 back to 0.25. -/
theorem size_multiplier_critical_counterexample :
    stateLossStreakDD.drawdown = 15/100
    ∧ get_size_multiplier defaultRiskLimits stateLossStreakDD = 1/4
    ∧ get_size_multiplier defaultRiskLimits stateLossStreakDD ≠ 3/8 := by
  refine ⟨?_, ?_, ?_⟩ <;>
    norm_num [get_size_multiplier, stateLossStreakDD, RiskManager.init,
      defaultRiskLimits, PortfolioState.drawdown]

/-- Claim C5 as amended: three consecutive losses with no drawdown give
multiplier 0.75; the same streak with a drawdown of exactly 15% (at the
critical threshold) gives 0.25, the critical-level reduction floored at
0.25, rather than the warning-level 0.375. -/
theorem size_multiplier_amended :
    get_size_multiplier defaultRiskLimits stateLossStreak = 3/4
    ∧ get_size_multiplier defaultRiskLimits stateLossStreakDD = 1/4 := by
  constructor <;>
    norm_num [get_size_multiplier, stateLossStreak, stateLossStreakDD,
      RiskManager.init, defaultRiskLimits, PortfolioState.drawdown]

/-- Claim C1: the heat-budget recompute in `calculate_position_size` fires
only when `remaining_heat < risk_pct`, ignoring the regime multiplier, so
the returned size can carry more risk than the remaining heat budget.  With
`max_risk_per_trade = 0.08` (other limits default), a fresh 100000-equity
manager and `regime_score = 1.5`, the call at price 100 / stop distance 100
returns 12000; registering the corresponding position (risk amount
12000 / 100 x 100 = 12000) lifts portfolio heat to 0.12, strictly above the
0.10 ceiling — the code contradicts the spec's stated heat invariant. -/
theorem heat_cap_exceeded_on_regime_boost :
    calculate_position_size limitsWideRisk (RiskManager.init 100000) 100 100 (3/2) none
      = 12000
    ∧ posWideRisk.risk_amount = 12000 / 100 * 100
    ∧ (add_position (RiskManager.init 100000) posWideRisk).portfolio_heat
        > limitsWideRisk.max_portfolio_heat := by
  refine ⟨?_, ?_, ?_⟩
  · norm_num [calculate_position_size, can_trade, RiskManager.init, defaultRiskLimits,
      limitsWideRisk, PortfolioState.drawdown, daily_limit_hit, DailyStats.daily_return,
      PortfolioState.portfolio_heat, PortfolioState.total_risk,
      PortfolioState.position_count, get_size_multiplier] <;> decide
  · norm_num [posWideRisk]
  · norm_num [add_position, RiskManager.init, defaultRiskLimits, limitsWideRisk,
      posWideRisk, PortfolioState.portfolio_heat, PortfolioState.total_risk]

/-- Claim C3: `can_trade` evaluates its conditions in the fixed source order
and returns the first that fires — halt drawdown, loss-streak halt, daily
ceilings, position count, portfolio heat (each Block), then the warning
drawdown / loss-streak throttle (Reduce), else Allow.  In particular
drawdown at or above `drawdown_halt` yields Block regardless of every other
field. -/
theorem can_trade_priority (l : RiskLimits) (s : PortfolioState) :
    (s.drawdown ≥ l.drawdown_halt → can_trade l s = RiskAction.block)
    ∧ (¬ s.drawdown ≥ l.drawdown_halt →
        s.consecutive_losses ≥ l.max_consecutive_losses →
        can_trade l s = RiskAction.block)
    ∧ (¬ s.drawdown ≥ l.drawdown_halt →
        ¬ s.consecutive_losses ≥ l.max_consecutive_losses →
        daily_limit_hit l s = true →
        can_trade l s = RiskAction.block)
    ∧ (¬ s.drawdown ≥ l.drawdown_halt →
        ¬ s.consecutive_losses ≥ l.max_consecutive_losses →
        ¬ daily_limit_hit l s = true →
        s.position_count ≥ l.max_positions →
        can_trade l s = RiskAction.block)
    ∧ (¬ s.drawdown ≥ l.drawdown_halt →
        ¬ s.consecutive_losses ≥ l.max_consecutive_losses →
        ¬ daily_limit_hit l s = true →
        ¬ s.position_count ≥ l.max_positions →
        s.portfolio_heat ≥ l.max_portfolio_heat →
        can_trade l s = RiskAction.block)
    ∧ (¬ s.drawdown ≥ l.drawdown_halt →
        ¬ s.consecutive_losses ≥ l.max_consecutive_losses →
        ¬ daily_limit_hit l s = true →
        ¬ s.position_count ≥ l.max_positions →
        ¬ s.portfolio_heat ≥ l.max_portfolio_heat →
        (s.drawdown ≥ l.drawdown_warning
          ∨ s.consecutive_losses ≥ l.consecutive_loss_threshold) →
        can_trade l s = RiskAction.reduce)
    ∧ (¬ s.drawdown ≥ l.drawdown_halt →
        ¬ s.consecutive_losses ≥ l.max_consecutive_losses →
        ¬ daily_limit_hit l s = true →
        ¬ s.position_count ≥ l.max_positions →
        ¬ s.portfolio_heat ≥ l.max_portfolio_heat →
        ¬ (s.drawdown ≥ l.drawdown_warning
            ∨ s.consecutive_losses ≥ l.consecutive_loss_threshold) →
        can_trade l s = RiskAction.allow) := by
  refine ⟨?_, ?_, ?_, ?_, ?_, ?_, ?_⟩
  · intro h1
    unfold can_trade
    rw [if_pos h1]
  · intro h1 h2
    unfold can_trade
    rw [if_neg h1, if_pos h2]
  · intro h1 h2 h3
    unfold can_trade
    rw [if_neg h1, if_neg h2, if_pos h3]
  · intro h1 h2 h3 h4
    unfold can_trade
    rw [if_neg h1, if_neg h2, if_neg h3, if_pos h4]
  · intro h1 h2 h3 h4 h5
    unfold can_trade
    rw [if_neg h1, if_neg h2, if_neg h3, if_neg h4, if_pos h5]
  · intro h1 h2 h3 h4 h5 h6
    unfold can_trade
    rw [if_neg h1, if_neg h2, if_neg h3, if_neg h4, if_neg h5]
    by_cases hw : s.drawdown ≥ l.drawdown_warning
    · rw [if_pos hw]
    · rw [if_neg hw, if_pos (h6.resolve_left hw)]
  · intro h1 h2 h3 h4 h5 h6
    unfold can_trade
    rw [if_neg h1, if_neg h2, if_neg h3, if_neg h4, if_neg h5,
      if_neg (fun h => h6 (Or.inl h)), if_neg (fun h => h6 (Or.inr h))]

/-- Witness for C3: a fresh 100000-equity manager under the default limits
blocks on nothing, throttles on nothing, and is allowed to trade. -/
theorem can_trade_priority_witness :
    can_trade defaultRiskLimits (RiskManager.init 100000) = RiskAction.allow :=
  (can_trade_priority defaultRiskLimits (RiskManager.init 100000)).2.2.2.2.2.2
    (by norm_num [RiskManager.init, defaultRiskLimits, PortfolioState.drawdown])
    (by norm_num [RiskManager.init, defaultRiskLimits])
    (by norm_num [RiskManager.init, defaultRiskLimits, daily_limit_hit,
      DailyStats.daily_return])
    (by norm_num [RiskManager.init, defaultRiskLimits, PortfolioState.position_count])
    (by norm_num [RiskManager.init, defaultRiskLimits, PortfolioState.portfolio_heat,
      PortfolioState.total_risk])
    (by norm_num [RiskManager.init, defaultRiskLimits, PortfolioState.drawdown])

/-- Claim C6 counterexample: on a bar with close 105 and high 111 against a
long position entered at 100 with stop 95 and target 110, the code exits on
the target (it compares the target against the bar's high), while the
spec-worded variant in which both comparisons use the close finds no exit at
all — the claim that the target comparison uses the closing price is false. -/
theorem exit_target_uses_high_counterexample :
    (check_exit_conditions ⟨100, 3/2⟩ ⟨100, 95, 110, false⟩ ⟨105, 111⟩ 2 1 90).2
      = some ExitReason.take_profit
    ∧ (105 : ℚ) < 110
    ∧ exit_reason_close_spec ⟨100, 95, 110, false⟩ ⟨105, 111⟩ 1 90 = none := by
  refine ⟨?_, by norm_num, ?_⟩ <;>
    norm_num [check_exit_conditions, update_trailing, exit_reason,
      exit_reason_close_spec]

/-- Claim C6 as amended: `check_exit_conditions` compares the stop against
the bar's close but the target against the bar's high; after the
trailing-stop update, exactly one exit reason is selected, with priority
stop > target > regime > trend, and the trend exit fires only when the close
is below the slow EMA while the position is at or above breakeven. -/
theorem exit_priority (p : ExitParams) (t : OpenTracking) (b : Bar)
    (atr : ℚ) (regime : ℕ) (ema_slow : ℚ) :
    (b.close ≤ (update_trailing p t b.close atr).stop_price →
      (check_exit_conditions p t b atr regime ema_slow).2 = some ExitReason.stop_loss)
    ∧ (¬ b.close ≤ (update_trailing p t b.close atr).stop_price →
        b.high ≥ (update_trailing p t b.close atr).target_price →
        (check_exit_conditions p t b atr regime ema_slow).2 = some ExitReason.take_profit)
    ∧ (¬ b.close ≤ (update_trailing p t b.close atr).stop_price →
        ¬ b.high ≥ (update_trailing p t b.close atr).target_price →
        regime = 3 →
        (check_exit_conditions p t b atr regime ema_slow).2 = some ExitReason.regime_exit)
    ∧ (¬ b.close ≤ (update_trailing p t b.close atr).stop_price →
        ¬ b.high ≥ (update_trailing p t b.close atr).target_price →
        ¬ regime = 3 →
        b.close < ema_slow →
        b.close ≥ (update_trailing p t b.close atr).entry_price →
        (check_exit_conditions p t b atr regime ema_slow).2 = some ExitReason.trend_exit)
    ∧ (¬ b.close ≤ (update_trailing p t b.close atr).stop_price →
        ¬ b.high ≥ (update_trailing p t b.close atr).target_price →
        ¬ regime = 3 →
        ¬ (b.close < ema_slow ∧ b.close ≥ (update_trailing p t b.close atr).entry_price) →
        (check_exit_conditions p t b atr regime ema_slow).2 = none) := by
  refine ⟨?_, ?_, ?_, ?_, ?_⟩
  · intro h1
    unfold check_exit_conditions exit_reason
    rw [if_pos h1]
  · intro h1 h2
    unfold check_exit_conditions exit_reason
    rw [if_neg h1, if_pos h2]
  · intro h1 h2 h3
    unfold check_exit_conditions exit_reason
    rw [if_neg h1, if_neg h2, if_pos h3]
  · intro h1 h2 h3 h4 h5
    unfold check_exit_conditions exit_reason
    rw [if_neg h1, if_neg h2, if_neg h3, if_pos ⟨h4, h5⟩]
  · intro h1 h2 h3 h4
    unfold check_exit_conditions exit_reason
    rw [if_neg h1, if_neg h2, if_neg h3, if_neg h4]

/-- Witness for C6's amended theorem: a bar closing at 90 against a stored
stop of 95 triggers the stop-loss exit. -/
theorem exit_priority_witness :
    (check_exit_conditions ⟨100, 3/2⟩ ⟨100, 95, 110, false⟩ ⟨90, 91⟩ 2 1 80).2
      = some ExitReason.stop_loss :=
  (exit_priority ⟨100, 3/2⟩ ⟨100, 95, 110, false⟩ ⟨90, 91⟩ 2 1 80).1
    (by norm_num [update_trailing])

/-- Claim C7: `VolatilityRegimeIndicator.next` is total and deterministic
(it is a function in this embedding): before the lookback window is filled,
or when the trailing ATR mean is zero, it returns Normal with score 1;
otherwise, with ratio = current ATR / trailing mean, it returns Compression
with score 1.5 (> 1) when the ratio is below the compression threshold,
Extreme with score 0.5 (< 1) when it exceeds the extreme threshold,
Expansion with score 0.8 when it exceeds the expansion threshold, and
Normal with score 1.0 otherwise.  A positive lookback is assumed: a zero
lookback window has no mean. -/
theorem regime_classifier_cases (p : RegimeParams) (atr : List ℚ)
    (hlb : 0 < p.lookback) :
    (atr.length < p.lookback →
      VolatilityRegimeIndicator.next p atr = ⟨regimeNormal, 1/2, 1⟩)
    ∧ (¬ atr.length < p.lookback → atr_mean p atr = 0 →
        VolatilityRegimeIndicator.next p atr = ⟨regimeNormal, 1/2, 1⟩)
    ∧ (¬ atr.length < p.lookback → ¬ atr_mean p atr = 0 →
        (atr.headI / atr_mean p atr < p.compression_thresh →
          VolatilityRegimeIndicator.next p atr
            = ⟨regimeCompression, atr.headI / atr_mean p atr, 3/2⟩ ∧ (1:ℚ) < 3/2)
        ∧ (¬ atr.headI / atr_mean p atr < p.compression_thresh →
            atr.headI / atr_mean p atr > p.extreme_thresh →
            VolatilityRegimeIndicator.next p atr
              = ⟨regimeExtreme, atr.headI / atr_mean p atr, 1/2⟩ ∧ (1/2:ℚ) < 1)
        ∧ (¬ atr.headI / atr_mean p atr < p.compression_thresh →
            ¬ atr.headI / atr_mean p atr > p.extreme_thresh →
            atr.headI / atr_mean p atr > p.expansion_thresh →
            VolatilityRegimeIndicator.next p atr
              = ⟨regimeExpansion, atr.headI / atr_mean p atr, 4/5⟩)
        ∧ (¬ atr.headI / atr_mean p atr < p.compression_thresh →
            ¬ atr.headI / atr_mean p atr > p.extreme_thresh →
            ¬ atr.headI / atr_mean p atr > p.expansion_thresh →
            VolatilityRegimeIndicator.next p atr
              = ⟨regimeNormal, atr.headI / atr_mean p atr, 1⟩)) := by
  refine ⟨?_, ?_, fun h1 h2 => ⟨?_, ?_, ?_, ?_⟩⟩
  · intro h1
    unfold VolatilityRegimeIndicator.next
    rw [if_pos h1]
    rfl
  · intro h1 h2
    unfold VolatilityRegimeIndicator.next
    rw [if_neg h1, if_pos h2]
    rfl
  · intro h3
    refine ⟨?_, by norm_num⟩
    unfold VolatilityRegimeIndicator.next
    rw [if_neg h1, if_neg h2, if_pos h3]
    rfl
  · intro h3 h4
    refine ⟨?_, by norm_num⟩
    unfold VolatilityRegimeIndicator.next
    rw [if_neg h1, if_neg h2, if_neg h3, if_pos h4]
    rfl
  · intro h3 h4 h5
    unfold VolatilityRegimeIndicator.next
    rw [if_neg h1, if_neg h2, if_neg h3, if_neg h4, if_pos h5]
    rfl
  · intro h3 h4 h5
    unfold VolatilityRegimeIndicator.next
    rw [if_neg h1, if_neg h2, if_neg h3, if_neg h4, if_neg h5]
    rfl

/-- Witness for C7: with the source defaults (lookback 20, thresholds
0.6 / 1.4 / 2.0) and an empty ATR window, the classifier returns Normal with
score 1 and neutral percentile 0.5. -/
theorem regime_classifier_cases_witness :
    VolatilityRegimeIndicator.next ⟨20, 3/5, 7/5, 2⟩ [] = ⟨regimeNormal, 1/2, 1⟩ :=
  (regime_classifier_cases ⟨20, 3/5, 7/5, 2⟩ [] (by norm_num)).1 (by simp)

/-- Claim C8 counterexample: the JSON-file backend's `record_trade` keeps
only the last 1000 records, so in a store already holding 1000 trades the
oldest record is no longer retrievable after one more `record_trade` call —
the backend is not append-only in the claimed sense. -/
theorem record_trade_truncates_counterexample :
    mkTrade "FIRST" ∈ jsonStFull.trades
    ∧ mkTrade "FIRST" ∉ (JsonFileStateManager.record_trade jsonStFull (mkTrade "B")).trades := by
  constructor
  · exact List.mem_cons_self _ _
  · have hlen : jsonStFull.trades.length = 1000 := by
      unfold jsonStFull
      rw [List.length_cons, List.length_replicate]
    have htr : (JsonFileStateManager.record_trade jsonStFull (mkTrade "B")).trades
        = List.replicate 999 (mkTrade "B") ++ [mkTrade "B"] := by
      unfold JsonFileStateManager.record_trade
      rw [hlen]
      unfold jsonStFull
      rw [List.cons_append, List.drop_one, List.tail_cons]
    rw [htr]
    intro hmem
    have hne : mkTrade "FIRST" ≠ mkTrade "B" := by
      intro h
      exact absurd (congrArg TradeRecord.symbol h) (by decide)
    rcases List.mem_append.mp hmem with h | h
    · exact hne (List.eq_of_mem_replicate h)
    · exact hne (List.mem_singleton.mp h)

/-- Claim C8 as amended: `record_trade` is append-only in the SQLite backend
(every previously recorded trade stays at its index, one record is added);
in the JSON-file backend the record is appended but only the most recent
1000 records are retained — the stored list is always a suffix of the
appended list (no record is ever mutated), and it equals the full appended
list whenever fewer than 1000 records were stored. -/
theorem record_trade_append_amended (db : SqliteDB) (st : JsonState)
    (t : TradeRecord) :
    (∀ i : ℕ, i < db.trades.length →
      (SqliteStateManager.record_trade db t).trades.get? i = db.trades.get? i)
    ∧ (SqliteStateManager.record_trade db t).trades.length = db.trades.length + 1
    ∧ (JsonFileStateManager.record_trade st t).trades <:+ st.trades ++ [t]
    ∧ (st.trades.length < 1000 →
        (JsonFileStateManager.record_trade st t).trades = st.trades ++ [t]) := by
  refine ⟨?_, ?_, ?_, ?_⟩
  · intro i hi
    exact List.get?_append hi
  · simp [SqliteStateManager.record_trade]
  · simp only [JsonFileStateManager.record_trade]
    exact List.drop_suffix _ _
  · intro hlt
    have h0 : st.trades.length + 1 - 1000 = 0 := by omega
    simp [JsonFileStateManager.record_trade, h0]

/-- Witness for C8's amended theorem: with one stored trade, the SQLite
backend leaves index 0 untouched and the JSON backend appends in full. -/
theorem record_trade_append_amended_witness :
    (SqliteStateManager.record_trade sqliteDbOne (mkTrade "B")).trades.get? 0
      = sqliteDbOne.trades.get? 0
    ∧ (JsonFileStateManager.record_trade jsonStOne (mkTrade "B")).trades
      = jsonStOne.trades ++ [mkTrade "B"] :=
  ⟨(record_trade_append_amended sqliteDbOne jsonStOne (mkTrade "B")).1 0
      (by simp [sqliteDbOne]),
   (record_trade_append_amended sqliteDbOne jsonStOne (mkTrade "B")).2.2.2
      (by simp [jsonStOne])⟩

/-- Claim C9 counterexample: the JSON-file backend's `import_json` replaces
the entire in-memory state with the file's contents, so importing an empty
snapshot into a store holding a checkpoint and a recorded trade wipes both —
the claim that checkpoint and trade history survive an import unchanged is
false for that backend. -/
theorem import_json_replaces_history_counterexample :
    (JsonFileStateManager.import_json jsonStWithHistory emptyJsonSnapshot).trades
      ≠ jsonStWithHistory.trades
    ∧ (JsonFileStateManager.import_json jsonStWithHistory emptyJsonSnapshot).checkpoint
      ≠ jsonStWithHistory.checkpoint := by
  constructor <;>
    simp [JsonFileStateManager.import_json, jsonStWithHistory, emptyJsonSnapshot]

/-- In the SQLite backend, folding `save_position` over any position list
never touches the checkpoint or trade tables. -/
theorem foldl_save_position_frame (ps : List StateStore.Position) (db : SqliteDB) :
    (ps.foldl SqliteStateManager.save_position db).checkpoints = db.checkpoints
    ∧ (ps.foldl SqliteStateManager.save_position db).trades = db.trades := by
  induction ps generalizing db with
  | nil => exact ⟨rfl, rfl⟩
  | cons p ps ih => exact ⟨(ih _).1, (ih _).2⟩

/-- Claim C9 as amended: in the SQLite backend `import_json` restores
positions only — the checkpoint history and the recorded trade history are
exactly the same after the import as before it; in the JSON-file backend
`import_json` instead replaces the whole state with the snapshot, so its
checkpoint and trade list afterwards are the snapshot's, not the store's. -/
theorem import_json_frame (db : SqliteDB) (snap : Snapshot)
    (st snapState : JsonState) :
    (SqliteStateManager.import_json db snap).checkpoints = db.checkpoints
    ∧ (SqliteStateManager.import_json db snap).trades = db.trades
    ∧ (JsonFileStateManager.import_json st snapState).trades = snapState.trades
    ∧ (JsonFileStateManager.import_json st snapState).checkpoint = snapState.checkpoint :=
  ⟨(foldl_save_position_frame snap.positions db).1,
   (foldl_save_position_frame snap.positions db).2, rfl, rfl⟩

/-- Claim C10 counterexample: a manager created with negative initial equity
(-10) that updates its equity to -20 keeps the negative peak -10, and the
drawdown property evaluates to (-10 - (-20)) / (-10) = -1 < 0 — the claimed
non-negativity fails when the peak is negative. -/
theorem drawdown_negative_counterexample :
    (update_equity (RiskManager.init (-10)) (-20)).drawdown < 0 := by
  norm_num [update_equity, RiskManager.init, PortfolioState.drawdown]

/-- Claim C10 as amended: `update_equity(e)` sets the peak to
`max(peak, e)`, so the peak is non-decreasing over any sequence of calls;
and provided the pre-state peak equity is non-negative (as holds whenever
the manager was created with non-negative initial equity), the drawdown
immediately after the call is non-negative. -/
theorem update_equity_peak_drawdown (s : PortfolioState) (e : ℚ) (es : List ℚ) :
    (update_equity s e).peak_equity = max s.peak_equity e
    ∧ s.peak_equity ≤ (update_equity s e).peak_equity
    ∧ s.peak_equity ≤ (es.foldl update_equity s).peak_equity
    ∧ (0 ≤ s.peak_equity → 0 ≤ (update_equity s e).drawdown) := by
  refine ⟨rfl, le_max_left _ _, ?_, ?_⟩
  · induction es generalizing s with
    | nil => exact le_refl _
    | cons x xs ih => exact le_trans (le_max_left _ _) (ih _)
  · intro hpk
    unfold update_equity PortfolioState.drawdown
    dsimp only
    split_ifs with h0
    · exact le_refl 0
    · exact div_nonneg (sub_nonneg.mpr (le_max_right _ _))
        (le_trans hpk (le_max_left _ _))

/-- Witness for C10's amended theorem: dropping a 100000-equity manager to
50000 leaves a non-negative drawdown. -/
theorem update_equity_peak_drawdown_witness :
    0 ≤ (update_equity (RiskManager.init 100000) 50000).drawdown :=
  (update_equity_peak_drawdown (RiskManager.init 100000) 50000 []).2.2.2
    (by norm_num [RiskManager.init])

end Theorems
